import Mathlib

/-!
Verification of the heat-jar firmware (rspg/arduino-jar).

This file gives a shallow embedding of the control/protocol kernel of the
firmware and proves properties of its specification against it.  The
embedding follows the complete source file (`src/unnamed/part_000`; the
companion sketch `skech_jar.ino` is a later revision of the same program
whose relevant functions are cited where they differ).  C machine floats
are modelled as exact rationals (`ℚ`), except where a property is genuinely
about the transcendental phase-angle formula, which is modelled over `ℝ`.
Machine integers stay in `Nat`/`Int`; the narrow `char`/`short` fields never
leave their ranges in the scenarios proved here, which keeps the embedding
faithful without explicit wrap-around.
-/

namespace HeatJar

/-! ### STATUS_CODE values (enum class STATUS_CODE : char) -/

def STANDBY : Int := 0
def COOKING : Int := 1
def UNKNOWN_ERROR : Int := -64
def INVALID_COMMAND : Int := -63
def INVALID_ARGUMENT : Int := -62
def COMMAND_OVERFLOW : Int := -61
def TEMPERATURE_OVERLIMIT : Int := -60
def TEMPERATURE_FEEDBACK_FAILED : Int := -59
def BTDEVICE_ERROR : Int := -58

/-- `STATUS::setCode`: the new value is stored only when the current code is
non-negative (`if((int)code >= 0) code = value;`), so a latched error code is
never overwritten by a later `setCode`. -/
def setCode (code value : Int) : Int :=
  if 0 ≤ code then value else code

/-- `STATUS::reset`: the only way back to `STANDBY` once an error is latched. -/
def statusReset : Int := STANDBY

/-! ### COMMAND_DATA and the program array -/

/-- `struct COMMAND_DATA { unsigned char cmd; unsigned char index;
unsigned char params[6]; }`, decoded from 16 hex characters on the wire in
byte order `cmd, index, params[0..5]`. -/
structure COMMAND_DATA where
  cmd : Nat
  index : Nat
  params : List Nat
deriving DecidableEq

def COMMAND_DATA_MAX : Nat := 32

def zeroCommand : COMMAND_DATA :=
  { cmd := 0, index := 0, params := List.replicate 6 0 }

/-- The global mutable state touched by the protocol engine, the sequencer
and the main loop: the wire-visible `STATUS` record, the control variables
and the 32-slot program array (`COMMAND_DATA commands[COMMAND_DATA_MAX]`). -/
structure ProgState where
  code : Int
  cmdid : Nat
  cmdnum : Nat
  power : Int
  temperature : Int
  remainTime : Nat
  currentTemperature : ℚ
  targetTemperature : ℚ
  temperatureErrorIntegral : ℚ
  commands : List COMMAND_DATA
deriving DecidableEq

/-- State at boot: zero-initialized `STATUS` and program array. -/
def initialState : ProgState :=
  { code := 0, cmdid := 0, cmdnum := 0, power := 0, temperature := 0,
    remainTime := 0, currentTemperature := 0, targetTemperature := 0,
    temperatureErrorIntegral := 0,
    commands := List.replicate COMMAND_DATA_MAX zeroCommand }

/-! ### Hex decoding (strtol base 16 on two-character strings)

`parseBT` decodes each byte with `strtol(hexstr, nullptr, 16)` where
`hexstr` holds exactly two characters taken from a printable line. `strtol`
consumes valid hex digits from the left and stops at the first invalid
character, returning 0 when no digit was consumed. -/

def hexDigitVal (c : Char) : Option Nat :=
  if '0' ≤ c ∧ c ≤ '9' then some (c.toNat - '0'.toNat)
  else if 'a' ≤ c ∧ c ≤ 'f' then some (c.toNat - 'a'.toNat + 10)
  else if 'A' ≤ c ∧ c ≤ 'F' then some (c.toNat - 'A'.toNat + 10)
  else none

def hexPair (c1 c2 : Char) : Nat :=
  match hexDigitVal c1 with
  | none => 0
  | some d1 =>
    match hexDigitVal c2 with
    | none => d1
    | some d2 => 16 * d1 + d2

/-- Byte `i` of the decoded record: `hexstr = { p[i*2 + 0], p[i*2 + 1] }`. -/
def decodeByte (p : List Char) (i : Nat) : Nat :=
  hexPair (p.getD (2 * i) '\x00') (p.getD (2 * i + 1) '\x00')

/-- The 8-byte record written through `reinterpret_cast<unsigned char*>`:
byte 0 is `cmd`, byte 1 is `index`, bytes 2..7 are `params`. -/
def decodeCommand (p : List Char) : COMMAND_DATA :=
  { cmd := decodeByte p 0
    index := decodeByte p 1
    params := [decodeByte p 2, decodeByte p 3, decodeByte p 4,
               decodeByte p 5, decodeByte p 6, decodeByte p 7] }

/-- `strchr(p, '.')` on the null-terminated line tail: index of the first
`'.'`, if any. -/
def strchrIdx : List Char → Option Nat
  | [] => none
  | c :: cs => if c = '.' then some 0 else (strchrIdx cs).map (· + 1)

/-! ### The parseBT line handler

`parseBT` buffers bytes until `'\n'` and then runs the body below on the
buffered line.  `processPayload` is the part after the `WV,001B,` service
match, with `p` pointing at `line+8`; `processLine` adds the two `strncmp`
prefix checks. -/

def processPayload (s : ProgState) (p : List Char) : ProgState :=
  match strchrIdx p with
  | none => { s with code := setCode s.code INVALID_ARGUMENT }
  | some q =>
    if q ≠ 16 then { s with code := setCode s.code INVALID_ARGUMENT }
    else
      let command := decodeCommand p
      let idx : Nat :=
        if command.index < 0x80 then command.index
        else if command.index = 0x80 then s.cmdnum
        else if command.index = 0x81 then s.cmdid
        else 0
      let s1 := if command.index = 0x80 then { s with cmdnum := s.cmdnum + 1 } else s
      if COMMAND_DATA_MAX ≤ idx then
        { s1 with code := setCode s1.code COMMAND_OVERFLOW }
      else
        { s1 with commands := s1.commands.set idx command }

def processLine (s : ProgState) (line : List Char) : ProgState :=
  if "WV,".toList.isPrefixOf line then
    if "001B,".toList.isPrefixOf (line.drop 3) then
      processPayload s (line.drop 8)
    else s
  else s

/-- The `'.'`-terminator check fails: either no `'.'` in the payload or the
first `'.'` is not at offset 16 (`q == nullptr || (q - p) != 16`). -/
def badTerminator (p : List Char) : Bool :=
  match strchrIdx p with
  | none => true
  | some q => q != 16

/-- The append frame used in the capacity scenario:
`WV,001B,0080000000000000.` carries a well-formed record with
`cmd = 0` and `index = 0x80` (append). -/
def appendLine : List Char := "WV,001B,0080000000000000.".toList

/-- One main-loop reception of `appendLine` by `parseBT`. -/
def appendStep (s : ProgState) : ProgState := processLine s appendLine

/-! ### parseBT line buffering (the 64-byte `static char line[64]`)

The byte-level loop of `parseBT` keeps a cursor `index` into the 64-byte
buffer.  A printable byte is stored at `line[index]` only when `index < 64`;
a `'\n'` stores the terminating `'\0'` at `line[index]` unconditionally and
resets the cursor.  The machine below tracks the cursor together with the
list of buffer offsets written to, in order. -/

def isPrintChar (c : Char) : Bool :=
  decide (32 ≤ c.toNat) && decide (c.toNat ≤ 126)

def parseBTBufStep : Nat × List Nat → Char → Nat × List Nat
  | (index, writes), c =>
    if c = '\n' then (0, writes ++ [index])
    else if isPrintChar c then
      if index < 64 then (index + 1, writes ++ [index]) else (index, writes)
    else (index, writes)

/-- The buffer offsets `parseBT` writes while consuming `input`, starting
from a fresh buffer (`index = 0`). -/
def parseBTWrites (input : List Char) : List Nat :=
  (input.foldl parseBTBufStep (0, [])).2

/-! ### Controller (calcPowerRateFeedbacked) -/

/-- `calcPowerRateFeedbacked`:
`e = targetTemperature - currentTemperature`,
`rate = clamp(Kp*(e + temperatureErrorIntegral), 0, 1)` with
`clamp(x, minv, maxv) = min(max(x, minv), maxv)`, and the cold-start cap
`currentTemperature < 40.0f ? min(rate, 0.5f) : rate`. -/
def calcPowerRateFeedbacked
    (targetTemperature currentTemperature temperatureErrorIntegral Kp : ℚ) : ℚ :=
  let e := targetTemperature - currentTemperature
  let rate := min (max (Kp * (e + temperatureErrorIntegral)) 0) 1
  if currentTemperature < 40 then min rate (1 / 2) else rate

/-! ### Phase-angle gate duration (calcHeatPowerDownDuration)

`powerRate = max(min(powerRate, 1.f), 0.f);`
`return (unsigned long)(acosf(1.f - 2.f*powerRate)*zeroCrossInterval/PI);`
modelled over `ℝ` before the final integer truncation. -/

noncomputable def calcHeatPowerDownDuration (powerRate zeroCrossInterval : ℝ) : ℝ :=
  Real.arccos (1 - 2 * max (min powerRate 1) 0) * zeroCrossInterval / Real.pi

/-! ### HOLD (CMD_KEEP) remaining-time encoding -/

/-- The `remainTime` encoding of `processCommand`'s `CMD_KEEP` branch:
`if(remain < 3600) status.remainTime = (unsigned short)ceilf(remain);
else status.remainTime = (unsigned short)ceilf(remain / 60.f) | 0x8000;`
The cast to `unsigned short` is modelled as reduction mod 2^16. -/
def encodeRemainTime (remain : ℚ) : Nat :=
  if remain < 3600 then (Int.toNat ⌈remain⌉) % 65536
  else ((Int.toNat ⌈remain / 60⌉) % 65536) ||| 0x8000

/-- The `CMD_KEEP` steady-state update:
`waitSeconds = *(unsigned short*)data.params * 60.f;`
`operationTime += delta*us_to_s;`
`remain = max(waitSeconds - operationTime, 0.0f);` and the encoding above.
Returns the new `operationTime` and the published `remainTime`. -/
def keepStep (waitMinutes : Nat) (operationTime deltaMicros : ℚ) : ℚ × Nat :=
  let waitSeconds : ℚ := (waitMinutes : ℚ) * 60
  let op := operationTime + deltaMicros * (1 / 1000000)
  let remain := max (waitSeconds - op) 0
  (op, encodeRemainTime remain)

/-! ### Boot-time EEPROM validation (setup / loadValue in skech_jar.ino)

The sketch revision validates each stored float with
`inRange(x, vmin, vmax) = !isnanf(x) && (x >= vmin) && (x < vmax)` and
rewrites the default when the check fails (`forceWrite` is `false`).  A C
float is modelled as either NaN or an exact rational. -/

inductive FLOAT where
  | nan : FLOAT
  | val : ℚ → FLOAT
deriving DecidableEq

def inRange (x : FLOAT) (vmin vmax : ℚ) : Bool :=
  match x with
  | .nan => false
  | .val v => decide (vmin ≤ v) && decide (v < vmax)

/-- `loadValue(addr, var, minValue, maxValue, defaultValue)`: returns the
value kept in RAM and whether the default was written back to EEPROM. -/
def loadValue (stored : FLOAT) (minValue maxValue defaultValue : ℚ) : FLOAT × Bool :=
  if !(inRange stored minValue maxValue) then (.val defaultValue, true)
  else (stored, false)

/-- `loadValue(EEPROM_Kp_ADDR, Kp, 0.000001f, 10000.f, 0.3f)` -/
def setupLoadKp (stored : FLOAT) : FLOAT × Bool :=
  loadValue stored (1 / 1000000) 10000 (3 / 10)

/-- `loadValue(EEPROM_Ti_ADDR, Ti, 0.000000f, 90000.f, 0.f)` -/
def setupLoadTi (stored : FLOAT) : FLOAT × Bool :=
  loadValue stored 0 90000 0

/-- `loadValue(EEPROM_Td_ADDR, Td, 0.000000f, 90000.f, 0.f)` -/
def setupLoadTd (stored : FLOAT) : FLOAT × Bool :=
  loadValue stored 0 90000 0

/-! ### The main-loop body (run) -/

/-- `status.hasError()`: `(int)code < 0`. -/
def hasError (s : ProgState) : Bool := decide (s.code < 0)

/-- The zeroing performed by `run` when an error is latched:
`currentTemperature = 0; targetTemperature = 0; temperatureErrorIntegral = 0;`. -/
def zeroControlState (s : ProgState) : ProgState :=
  { s with currentTemperature := 0, targetTemperature := 0,
           temperatureErrorIntegral := 0 }

/-- `run`, parameterized by the four subsystems it may call:
`measureTemperature`, `parseBT`, `processCommand` and `display`.  On an
error it zeroes the control state and only calls `display`; otherwise it
runs sampler, parser and sequencer in order, then `display`. -/
def run (measureTemperatureFn parseBTFn processCommandFn displayFn :
    ProgState → ProgState) (s : ProgState) : ProgState :=
  if hasError s then
    displayFn (zeroControlState s)
  else
    displayFn (processCommandFn (parseBTFn (measureTemperatureFn s)))

/-! ### Concrete protocol lines used by the witnesses and counterexamples -/

/-- A frame whose first `'.'` comes after only 2 payload characters. -/
def c4BadLine : List Char := "WV,001B,00.".toList

/-- A frame whose `'.'` is at offset 16 but whose payload contains the
non-hex characters `Z`: `cmd = 0x01`, `index = 0x00`, params decode to 0. -/
def c4NonHexLine : List Char := "WV,001B,0100ZZZZZZZZZZZZ.".toList

/-- A well-formed frame whose index byte is `0x82`, a value the protocol
does not define. -/
def c10Line : List Char := "WV,001B,0782111213141516.".toList

/-! ## Theorems -/

/-- Claim C1: for every sequence of `setCode` calls on a `STATUS` record,
once `status.code` is negative it never becomes non-negative again except
through an explicit `reset()`: `setCode(v)` writes `v` only when the current
code is non-negative, so a latched error survives any further `setCode`
sequence unchanged (and in particular never returns to a value `≥ 0`). -/
theorem setCode_error_latched (c : Int) (vs : List Int) (h : c < 0) :
    List.foldl setCode c vs = c ∧ List.foldl setCode c vs < 0 := by
  have key : List.foldl setCode c vs = c := by
    induction vs with
    | nil => rfl
    | cons v vs ih =>
      have hc : setCode c v = c := by
        simp [setCode, if_neg (not_le.mpr h)]
      simpa [List.foldl, hc] using ih
  exact ⟨key, by rw [key]; exact h⟩

/-- Witness for C1: a latched `COMMAND_OVERFLOW` survives the sequence
`[STANDBY, COOKING, BTDEVICE_ERROR]` of attempted writes. -/
theorem setCode_error_latched_witness :
    (-61 : Int) < 0 ∧
    (List.foldl setCode (-61) [0, 1, -58] = -61 ∧
     List.foldl setCode (-61) [0, 1, -58] < 0) :=
  ⟨by decide, setCode_error_latched (-61) [0, 1, -58] (by decide)⟩

/-- Claim C2: for every state, `calcPowerRateFeedbacked` returns
`clamp(Kp * ((target - current) + temperatureErrorIntegral), 0, 1)`,
additionally capped to at most `0.5` whenever the current temperature is
below 40 °C. -/
theorem calcPowerRateFeedbacked_formula
    (target current integral Kp : ℚ) :
    calcPowerRateFeedbacked target current integral Kp =
      if current < 40 then
        min (min (max (Kp * ((target - current) + integral)) 0) 1) (1 / 2)
      else min (max (Kp * ((target - current) + integral)) 0) 1 := rfl

set_option maxRecDepth 100000 in
/-- Counterexample for C3: after 33 append frames (`index = 0x80`),
`status.cmdnum` is 33 — the claim that `cmdnum` never exceeds 32 is false,
because `index = status.cmdnum++` post-increments the cursor before the
capacity check. -/
theorem append_overflow_cmdnum_counterexample :
    ¬ ((appendStep^[33] initialState).cmdnum ≤ 32) := by decide

set_option maxRecDepth 100000 in
/-- Claim C3 (amended): processing the 33rd append frame latches
`COMMAND_OVERFLOW` (−61) and leaves the 32-slot command array unchanged,
but the upload cursor `cmdnum`, post-incremented before the bounds check,
reaches 33; only the slot writes stop at 32. -/
theorem append_overflow_behavior :
    (appendStep^[32] initialState).code = 0 ∧
    (appendStep^[32] initialState).cmdnum = 32 ∧
    (appendStep^[33] initialState).code = COMMAND_OVERFLOW ∧
    (appendStep^[33] initialState).commands = (appendStep^[32] initialState).commands ∧
    (appendStep^[33] initialState).cmdnum = 33 := by decide

/-- Counterexample for C4: the frame `WV,001B,0100ZZZZZZZZZZZZ.` has its
`'.'` after 16 characters that are not all hex, so by the claim it should
set `INVALID_ARGUMENT` and leave the program array unchanged; the code
accepts it (only the position of the first `'.'` is checked), decodes the
invalid digits as 0 via `strtol`, and overwrites slot 0. -/
theorem invalid_frame_nonhex_counterexample :
    (processLine initialState c4NonHexLine).code = 0 ∧
    (processLine initialState c4NonHexLine).commands ≠ initialState.commands := by
  decide

/-- Claim C4 (amended): for every received line beginning `WV,001B,` in
which the first `'.'` of the payload is absent or is not at offset exactly
16 — hex-validity of the 16 characters is not checked — `parseBT` applies
`setCode(INVALID_ARGUMENT)` to `status.code` and leaves every slot of the
command array and both cursors (`cmdid`, `cmdnum`) unchanged. -/
theorem parseBT_bad_terminator_rejects (s : ProgState) (line : List Char)
    (h1 : "WV,".toList.isPrefixOf line = true)
    (h2 : "001B,".toList.isPrefixOf (line.drop 3) = true)
    (h3 : badTerminator (line.drop 8) = true) :
    processLine s line = { s with code := setCode s.code INVALID_ARGUMENT } := by
  unfold processLine
  rw [h1, h2]
  simp only [if_true]
  rcases hq : strchrIdx (line.drop 8) with _ | q
  · simp [processPayload, hq]
  · rw [badTerminator, hq] at h3
    simp only [bne_iff_ne, ne_eq, decide_eq_true_eq] at h3
    simp [processPayload, hq, h3]

/-- Witness for C4: the frame `WV,001B,00.` (first `'.'` at offset 2) is
rejected with `INVALID_ARGUMENT` and the state is otherwise untouched. -/
theorem parseBT_bad_terminator_rejects_witness :
    ("WV,".toList.isPrefixOf c4BadLine = true) ∧
    ("001B,".toList.isPrefixOf (c4BadLine.drop 3) = true) ∧
    (badTerminator (c4BadLine.drop 8) = true) ∧
    processLine initialState c4BadLine =
      { initialState with code := setCode initialState.code INVALID_ARGUMENT } :=
  ⟨by decide, by decide, by decide,
   parseBT_bad_terminator_rejects initialState c4BadLine
     (by decide) (by decide) (by decide)⟩

/-- Claim C5: for all rates `r ∈ [0, 1]` and a fixed half-period
`T = zeroCrossInterval ≥ 0`, the gate-duration helper computes
`Δon(r) = T·arccos(1 − 2r)/π`, monotone non-decreasing in `r`, with
`Δon(0) = 0` and `Δon(1) = T`. -/
theorem gateDuration_monotone_endpoints (T r1 r2 : ℝ)
    (hT : 0 ≤ T) (h0 : 0 ≤ r1) (h12 : r1 ≤ r2) (h21 : r2 ≤ 1) :
    calcHeatPowerDownDuration r1 T ≤ calcHeatPowerDownDuration r2 T ∧
    calcHeatPowerDownDuration 0 T = 0 ∧
    calcHeatPowerDownDuration 1 T = T := by
  have hclamp : ∀ r : ℝ, 0 ≤ r → r ≤ 1 → max (min r 1) 0 = r := by
    intro r hr0 hr1
    rw [min_eq_left hr1, max_eq_left hr0]
  have harccos : ∀ x y : ℝ, x ≤ y → Real.arccos y ≤ Real.arccos x := by
    intro x y hxy
    rw [Real.arccos_eq_pi_div_two_sub_arcsin, Real.arccos_eq_pi_div_two_sub_arcsin]
    exact sub_le_sub_left (Real.monotone_arcsin hxy) _
  refine ⟨?_, ?_, ?_⟩
  · unfold calcHeatPowerDownDuration
    rw [hclamp r1 h0 (le_trans h12 h21), hclamp r2 (le_trans h0 h12) h21]
    have hle : Real.arccos (1 - 2 * r1) ≤ Real.arccos (1 - 2 * r2) :=
      harccos _ _ (by linarith)
    have hmul := mul_le_mul_of_nonneg_right hle hT
    exact (div_le_div_iff_of_pos_right Real.pi_pos).mpr hmul
  · unfold calcHeatPowerDownDuration
    rw [hclamp 0 le_rfl zero_le_one]
    norm_num [Real.arccos_one]
  · unfold calcHeatPowerDownDuration
    rw [hclamp 1 zero_le_one le_rfl]
    have hx : (1 : ℝ) - 2 * 1 = -1 := by norm_num
    rw [hx, Real.arccos_neg_one, mul_comm, mul_div_assoc,
        div_self Real.pi_ne_zero, mul_one]

/-- Witness for C5: at `T = 10000 μs`, the duration rises from 0 at
`r = 0` to the full half-period at `r = 1`. -/
theorem gateDuration_monotone_endpoints_witness :
    ((0 : ℝ) ≤ 10000 ∧ (0 : ℝ) ≤ 0 ∧ (0 : ℝ) ≤ 1 ∧ (1 : ℝ) ≤ 1) ∧
    (calcHeatPowerDownDuration 0 10000 ≤ calcHeatPowerDownDuration 1 10000 ∧
     calcHeatPowerDownDuration 0 10000 = 0 ∧
     calcHeatPowerDownDuration 1 10000 = 10000) :=
  ⟨⟨by norm_num, le_refl 0, by norm_num, le_refl 1⟩,
   gateDuration_monotone_endpoints 10000 0 1 (by norm_num) (le_refl 0)
     (by norm_num) (le_refl 1)⟩

/-- Claim C6: on a sequencer pass executing a `HOLD` (`CMD_KEEP`) slot with
remaining time `R` seconds, `status.remainTime` is set to `⌈R⌉` when
`R < 3600`, and to `⌈R/60⌉` with bit 15 (`0x8000`) set when `R ≥ 3600`.
The bounds `waitMinutes ≤ 65535` (a `u16` on the wire) and non-negative
elapsed times keep the `unsigned short` cast lossless. -/
theorem keepStep_remainTime_encoding (waitMinutes : Nat)
    (operationTime deltaMicros : ℚ)
    (hm : waitMinutes ≤ 65535) (hop : 0 ≤ operationTime) (hd : 0 ≤ deltaMicros) :
    (keepStep waitMinutes operationTime deltaMicros).2 =
      if max ((waitMinutes : ℚ) * 60 - (operationTime + deltaMicros * (1 / 1000000))) 0 < 3600
      then Int.toNat ⌈max ((waitMinutes : ℚ) * 60 - (operationTime + deltaMicros * (1 / 1000000))) 0⌉
      else Int.toNat ⌈max ((waitMinutes : ℚ) * 60 - (operationTime + deltaMicros * (1 / 1000000))) 0 / 60⌉ ||| 0x8000 := by
  have hstep : (keepStep waitMinutes operationTime deltaMicros).2 =
      encodeRemainTime
        (max ((waitMinutes : ℚ) * 60 - (operationTime + deltaMicros * (1 / 1000000))) 0) := rfl
  rw [hstep]
  set R : ℚ := max ((waitMinutes : ℚ) * 60 - (operationTime + deltaMicros * (1 / 1000000))) 0
    with hRdef
  have hRub : R ≤ 3932100 := by
    rw [hRdef]
    apply max_le
    · have hw : (waitMinutes : ℚ) ≤ 65535 := by exact_mod_cast hm
      have hx : 0 ≤ operationTime + deltaMicros * (1 / 1000000) := by positivity
      nlinarith
    · norm_num
  unfold encodeRemainTime
  by_cases hlt : R < 3600
  · rw [if_pos hlt, if_pos hlt]
    have hceil : ⌈R⌉ ≤ 3600 := Int.ceil_le.mpr (by exact_mod_cast hlt.le)
    have htn : Int.toNat ⌈R⌉ ≤ 3600 := Int.toNat_le.mpr (by exact_mod_cast hceil)
    exact Nat.mod_eq_of_lt (by omega)
  · rw [if_neg hlt, if_neg hlt]
    have h60 : R / 60 ≤ 65535 := by
      rw [div_le_iff₀ (by norm_num : (0 : ℚ) < 60)]
      linarith
    have hceil : ⌈R / 60⌉ ≤ 65535 := Int.ceil_le.mpr (by exact_mod_cast h60)
    have htn : Int.toNat ⌈R / 60⌉ ≤ 65535 := Int.toNat_le.mpr (by exact_mod_cast hceil)
    rw [Nat.mod_eq_of_lt (by omega)]

/-- Witness for C6: a fresh 120-minute hold publishes
`⌈7200/60⌉ | 0x8000 = 32888`. -/
theorem keepStep_remainTime_encoding_witness :
    ((120 : ℕ) ≤ 65535 ∧ (0 : ℚ) ≤ 0 ∧ (0 : ℚ) ≤ 0) ∧
    (keepStep 120 0 0).2 =
      (if max (((120 : ℕ) : ℚ) * 60 - (0 + 0 * (1 / 1000000))) 0 < 3600
       then Int.toNat ⌈max (((120 : ℕ) : ℚ) * 60 - (0 + 0 * (1 / 1000000))) 0⌉
       else Int.toNat ⌈max (((120 : ℕ) : ℚ) * 60 - (0 + 0 * (1 / 1000000))) 0 / 60⌉ ||| 0x8000) :=
  ⟨⟨by decide, le_refl 0, le_refl 0⟩,
   keepStep_remainTime_encoding 120 0 0 (by decide) (le_refl 0) (le_refl 0)⟩

/-- Claim C7: every main-loop pass entered with `status.code < 0` zeroes
`currentTemperature`, `targetTemperature` and the error-integral state,
invokes only the status publisher (`display`) on the zeroed state, and is
independent of the sampler, parser and sequencer. -/
theorem run_error_freezes_control
    (m1 p1 q1 m2 p2 q2 d : ProgState → ProgState) (s : ProgState)
    (h : s.code < 0) :
    run m1 p1 q1 d s = d (zeroControlState s) ∧
    run m1 p1 q1 d s = run m2 p2 q2 d s := by
  have hb : hasError s = true := by simp [hasError, h]
  constructor <;> simp [run, hb]

/-- Witness for C7: a state with `BTDEVICE_ERROR` latched goes straight to
the publisher with zeroed control values, whatever the other subsystems
would have done. -/
theorem run_error_freezes_control_witness :
    ({ initialState with code := BTDEVICE_ERROR } : ProgState).code < 0 ∧
    (run id id id id { initialState with code := BTDEVICE_ERROR } =
        id (zeroControlState { initialState with code := BTDEVICE_ERROR }) ∧
     run id id id id { initialState with code := BTDEVICE_ERROR } =
        run (fun _ => initialState) (fun _ => initialState) (fun _ => initialState) id
          { initialState with code := BTDEVICE_ERROR }) :=
  ⟨by decide,
   run_error_freezes_control id id id
     (fun _ => initialState) (fun _ => initialState) (fun _ => initialState) id
     { initialState with code := BTDEVICE_ERROR } (by decide)⟩

/-- `loadValue` written without the Boolean negation: keep the stored value
iff the range check passes, otherwise write the default back. -/
theorem loadValue_eq (stored : FLOAT) (vmin vmax dflt : ℚ) :
    loadValue stored vmin vmax dflt =
      if inRange stored vmin vmax then (stored, false) else (.val dflt, true) := by
  unfold loadValue
  cases h : inRange stored vmin vmax <;> simp [h]

/-- Counterexample for C8: the boot validation writes `Ti`'s default as 0,
not 0.01 (stored `Ti = −1` is out of range and is replaced by 0), and the
kept range for `Kp` is closed at `1e-6` (a stored `Kp = 1e-6` is kept and
nothing is written back, while the claim's open interval `(1e-6, 1e4)`
would replace it). -/
theorem eeprom_defaults_counterexample :
    (setupLoadTi (.val (-1)) = (.val 0, true) ∧ (0 : ℚ) ≠ 1 / 100) ∧
    setupLoadKp (.val (1 / 1000000)) = (.val (1 / 1000000), false) := by
  refine ⟨⟨?_, by norm_num⟩, ?_⟩
  · rw [show setupLoadTi (.val (-1)) = loadValue (.val (-1)) 0 90000 0 from rfl,
        loadValue_eq]
    norm_num [inRange]
  · rw [show setupLoadKp (.val (1 / 1000000)) =
          loadValue (.val (1 / 1000000)) (1 / 1000000) 10000 (3 / 10) from rfl,
        loadValue_eq]
    norm_num [inRange]

/-- Claim C8 (amended): at boot each stored tuning value is validated with
`inRange`: `Kp` is kept iff it is not NaN and lies in `[1e-6, 1e4)`,
otherwise default `0.3` is written back; `Ti` and `Td` are kept iff not NaN
and in `[0, 9e4)`, otherwise default `0` (for both) is written back; a kept
value leaves the store unchanged. -/
theorem eeprom_loadValue_behavior (kp ti td : FLOAT) :
    setupLoadKp kp =
      (if inRange kp (1 / 1000000) 10000 then (kp, false) else (.val (3 / 10), true)) ∧
    setupLoadTi ti = (if inRange ti 0 90000 then (ti, false) else (.val 0, true)) ∧
    setupLoadTd td = (if inRange td 0 90000 then (td, false) else (.val 0, true)) :=
  ⟨loadValue_eq kp (1 / 1000000) 10000 (3 / 10),
   loadValue_eq ti 0 90000 0,
   loadValue_eq td 0 90000 0⟩

set_option maxRecDepth 100000 in
/-- Claim C9 is false of the code: after 64 printable bytes the cursor
equals 64 and the `'\n'` handler stores the terminating `'\0'` at
`line[64]`, one past the end of the 64-byte buffer.  The theorem evaluates
the byte loop at the failing input: 64 `'A'` bytes followed by `'\n'`
produce a write at offset 64. -/
theorem parseBT_buffer_overrun_at_64 :
    64 ∈ parseBTWrites (List.replicate 64 'A' ++ ['\n']) ∧
    ¬ (∀ i ∈ parseBTWrites (List.replicate 64 'A' ++ ['\n']), i < 64) := by
  decide

/-- Claim C10: an accepted, well-formed frame whose index byte lies in
`0x82..0xFF` matches none of the three addressing branches, so the slot
variable keeps its initializer 0: slot 0 is silently overwritten with the
decoded record, no error is raised, and `cmdnum`, `cmdid` stay unchanged. -/
theorem parseBT_undefined_index_slot0 (s : ProgState) (line : List Char)
    (h1 : "WV,".toList.isPrefixOf line = true)
    (h2 : "001B,".toList.isPrefixOf (line.drop 3) = true)
    (h3 : strchrIdx (line.drop 8) = some 16)
    (h4 : 0x82 ≤ (decodeCommand (line.drop 8)).index) :
    processLine s line =
      { s with commands := s.commands.set 0 (decodeCommand (line.drop 8)) } := by
  unfold processLine
  rw [h1, h2]
  simp only [if_true]
  unfold processPayload
  rw [h3]
  have hlt : ¬ ((decodeCommand (line.drop 8)).index < 0x80) := by omega
  have h80 : ¬ ((decodeCommand (line.drop 8)).index = 0x80) := by omega
  have h81 : ¬ ((decodeCommand (line.drop 8)).index = 0x81) := by omega
  simp [hlt, h80, h81, COMMAND_DATA_MAX]

/-- Witness for C10: the frame `WV,001B,0782111213141516.` (index byte
`0x82`) lands in slot 0 with no error and untouched cursors. -/
theorem parseBT_undefined_index_slot0_witness :
    ("WV,".toList.isPrefixOf c10Line = true) ∧
    ("001B,".toList.isPrefixOf (c10Line.drop 3) = true) ∧
    (strchrIdx (c10Line.drop 8) = some 16) ∧
    (0x82 ≤ (decodeCommand (c10Line.drop 8)).index) ∧
    processLine initialState c10Line =
      { initialState with
          commands := initialState.commands.set 0 (decodeCommand (c10Line.drop 8)) } :=
  ⟨by decide, by decide, by decide, by decide,
   parseBT_undefined_index_slot0 initialState c10Line
     (by decide) (by decide) (by decide) (by decide)⟩

end HeatJar
